import Mathlib

/-!
Shallow embedding of the surfman-webrender demo's frame-orchestration core:
the coordinate resolver (`src/window.rs`), the compositor's GL sequence
(`src/compositor.rs`), and the event loop (`src/app.rs`, `run`).

Rust `f32`/`f64` quantities are modelled as rationals (ℚ), `i32` as ℤ, and
`euclid`'s `to_i32` cast (which truncates toward zero) as `toI32`.  Fallible
window queries (`get_outer_size`/`get_inner_size` return `Option`, unwrapped
with `.expect`, which panics) are modelled with `Except PanicMsg`.
-/

deriving instance DecidableEq for Except

namespace Demo

/-- Truncation toward zero of a rational, as performed by euclid's
`to_i32` cast (Rust `as i32` semantics on the magnitudes in range). -/
def toI32 (q : ℚ) : ℤ :=
  if 0 ≤ q then ⌊q⌋ else ⌈q⌉

/-- Model of `DeviceIntSize` (i32 width/height). -/
structure IntSize where
  width : ℤ
  height : ℤ
deriving DecidableEq

/-- Model of `DeviceIntPoint`. -/
structure IntPoint where
  x : ℤ
  y : ℤ
deriving DecidableEq

/-- Model of `DeviceIntRect`. -/
structure IntRect where
  origin : IntPoint
  size : IntSize
deriving DecidableEq

/-- Model of `LayoutSize` (f32 width/height, as rationals). -/
structure FloatSize where
  width : ℚ
  height : ℚ
deriving DecidableEq

/-- Mirror of `window.rs`'s `EmbedderCoordinates`. -/
structure EmbedderCoordinates where
  hidpi_factor : ℚ
  screen : IntSize
  window : IntSize × IntPoint
  framebuffer : IntSize
  viewport : IntRect
  layout : FloatSize
deriving DecidableEq

/-- Mirror of `EmbedderCoordinates::get_flipped_viewport` (window.rs:34-39):
`view.origin.y = fb_height - view.origin.y - view.size.height`. -/
def EmbedderCoordinates.get_flipped_viewport (c : EmbedderCoordinates) : IntRect :=
  let fb_height := c.framebuffer.height
  { origin := { x := c.viewport.origin.x
                y := fb_height - c.viewport.origin.y - c.viewport.size.height }
    size := c.viewport.size }

/-- The panics reachable from `Window::get_coordinates` via `.expect`. -/
inductive PanicMsg
  | failedOuterSize
  | failedInnerSize
deriving DecidableEq

/-- The observable winit-window state that `Window::get_coordinates` reads:
the hidpi factor, the outer size, the position, the screen size (u32 pair,
stored at window creation) and the inner size.  The `Option` fields model the
fallible winit queries. -/
structure Window where
  hidpi : ℚ
  outer_size : Option (ℚ × ℚ)
  position : Option (ℚ × ℚ)
  screen_size : ℕ × ℕ
  inner_size : Option (ℚ × ℚ)
deriving DecidableEq

/-- Mirror of `Window::get_coordinates` (window.rs:110-141).  The two
`.expect` calls on `get_outer_size` / `get_inner_size` become `Except.error`
(a Rust panic); `get_position` uses `unwrap_or((0,0))`. -/
def Window.get_coordinates (w : Window) : Except PanicMsg EmbedderCoordinates :=
  let dpr := w.hidpi
  match w.outer_size with
  | none => Except.error PanicMsg.failedOuterSize
  | some (ow, oh) =>
    let p := w.position.getD (0, 0)
    let win_size : IntSize := ⟨toI32 (ow * dpr), toI32 (oh * dpr)⟩
    let win_origin : IntPoint := ⟨toI32 (p.1 * dpr), toI32 (p.2 * dpr)⟩
    let screen : IntSize :=
      ⟨toI32 ((w.screen_size.1 : ℚ) * dpr), toI32 ((w.screen_size.2 : ℚ) * dpr)⟩
    match w.inner_size with
    | none => Except.error PanicMsg.failedInnerSize
    | some (iw, ih) =>
      let inner_size : IntSize := ⟨toI32 (iw * dpr), toI32 (ih * dpr)⟩
      let viewport : IntRect := ⟨⟨0, 0⟩, inner_size⟩
      let framebuffer : IntSize := viewport.size
      let layout : FloatSize :=
        ⟨(framebuffer.width : ℚ) / dpr, (framebuffer.height : ℚ) / dpr⟩
      Except.ok
        { hidpi_factor := dpr
          screen := screen
          window := (win_size, win_origin)
          framebuffer := framebuffer
          viewport := viewport
          layout := layout }

/-- Model of the webrender `Transaction` assembled by
`Compositor::send_display_list` (compositor.rs:78-95): it records the epoch
passed to `set_display_list`, the root pipeline and the `generate_frame`
call.  The display-list payload itself is opaque to this development. -/
structure Transaction where
  display_list_epoch : ℕ
  root_pipeline : ℕ × ℕ
  generate_frame : Bool
deriving DecidableEq

namespace Compositor

/-- Mirror of `Compositor::send_display_list`: the transaction sent to the
render api carries exactly the epoch and pipeline id given by the caller. -/
def send_display_list (epoch : ℕ) (pipeline_id : ℕ × ℕ) : Transaction :=
  { display_list_epoch := epoch
    root_pipeline := pipeline_id
    generate_frame := true }

end Compositor

/-- The observable GL-level steps of `Compositor::composite` /
`clear_background` (compositor.rs:97-170). -/
inductive GlStep
  | logMakeCurrentFailed
  | bindFramebuffer (fbo : ℕ)
  | update
  | clearBackground (flipped_viewport : IntRect)
  | render (size : IntSize)
deriving DecidableEq

namespace Compositor

/-- Mirror of `Compositor::composite` (compositor.rs:97-119).
`make_current_ok` is the result of `make_gl_context_current` (an `Err` is
only logged); `context_surface_info` models
`context_surface_info().unwrap_or(None).map(|i| i.framebuffer_object).unwrap_or(0)`;
the window's coordinates are queried once for the render size and once more
inside `clear_background` for the flipped viewport, and a panic in either
query (`.expect`) aborts.  On success it returns the ordered list of GL
steps performed. -/
def composite (make_current_ok : Bool) (context_surface_info : Option (Option ℕ))
    (w : Window) : Except PanicMsg (List GlStep) :=
  let log : List GlStep := if make_current_ok then [] else [GlStep.logMakeCurrentFailed]
  let framebuffer_object := (context_surface_info.getD none).getD 0
  let bound := log ++ [GlStep.bindFramebuffer framebuffer_object, GlStep.update]
  match w.get_coordinates with
  | Except.error e => Except.error e
  | Except.ok c =>
    match w.get_coordinates with
    | Except.error e => Except.error e
    | Except.ok c2 =>
      Except.ok (bound ++
        [GlStep.clearBackground c2.get_flipped_viewport, GlStep.render c.framebuffer])

end Compositor

/-- Model of winit `VirtualKeyCode`: `Escape` versus everything else. -/
inductive Key
  | escape
  | otherKey (code : ℕ)
deriving DecidableEq

/-- Model of the winit `WindowEvent` variants distinguished by `run`
(app.rs:215-245): `CloseRequested`, `AxisMotion`, `CursorMoved`,
`KeyboardInput` (with its pressed state and optional virtual keycode), and a
catch-all for every other window event. -/
inductive WindowEvent
  | closeRequested
  | axisMotion
  | cursorMoved
  | keyboardInput (pressed : Bool) (keycode : Option Key)
  | otherEvent (tag : ℕ)
deriving DecidableEq

/-- Model of winit `Event`: either a `WindowEvent` or any non-window event
(`Awakened`, `DeviceEvent`, ...), which `run` matches with `_ => return
ControlFlow::Continue` (app.rs:210-213). -/
inductive GlobalEvent
  | windowEvent (e : WindowEvent)
  | nonWindowEvent (tag : ℕ)
deriving DecidableEq

namespace Notifier

/-- `Notifier::wake_up` (app.rs:38-41) posts a winit `Awakened` event via
the events-loop proxy; that event is not a `WindowEvent`. -/
def wake_up : GlobalEvent :=
  GlobalEvent.nonWindowEvent 0

end Notifier

/-- Model of `winit::ControlFlow` as returned by the `run_forever` closure. -/
inductive ControlFlow
  | Continue
  | Break
deriving DecidableEq

/-- The scene strategy (`trait App`): its mutable state `σ` and its
`on_event` handler, which may mutate the state and returns whether a rebuild
is required.  `build_display_list` and `draw_custom` are opaque; the loop
trace records when they are invoked. -/
structure AppModel (σ : Type) where
  on_event : σ → WindowEvent → σ × Bool

/-- The renderer-visible calls a single loop iteration can make. -/
inductive Action
  | sendTransaction (txn : Transaction)
  | composite
  | drawCustom
  | present
  | deinit
deriving DecidableEq

/-- The composite / draw_custom / present tail run by every iteration that
falls through the event match (app.rs:257-259). -/
def frameTail : List Action :=
  [Action.composite, Action.drawCustom, Action.present]

/-- One execution of the `run_forever` closure (app.rs:208-261) for one
incoming event: returns the updated strategy state, the returned
`ControlFlow`, and the ordered renderer-visible actions performed.
`epoch`/`pipeline_id` are the variables captured by the closure
(app.rs:189-190). -/
def iterate {σ : Type} (app : AppModel σ) (epoch : ℕ) (pipeline_id : ℕ × ℕ)
    (s : σ) (global_event : GlobalEvent) : σ × ControlFlow × List Action :=
  match global_event with
  | GlobalEvent.nonWindowEvent _ => (s, ControlFlow.Continue, [])
  | GlobalEvent.windowEvent win_event =>
    match win_event with
    | WindowEvent.closeRequested => (s, ControlFlow.Break, [])
    | WindowEvent.axisMotion =>
      let r := app.on_event s WindowEvent.axisMotion
      if r.2 then
        (r.1, ControlFlow.Continue,
          Action.sendTransaction (Compositor.send_display_list epoch pipeline_id) :: frameTail)
      else
        (r.1, ControlFlow.Continue, [])
    | WindowEvent.cursorMoved =>
      let r := app.on_event s WindowEvent.cursorMoved
      if r.2 then
        (r.1, ControlFlow.Continue,
          Action.sendTransaction (Compositor.send_display_list epoch pipeline_id) :: frameTail)
      else
        (r.1, ControlFlow.Continue, [])
    | WindowEvent.keyboardInput true (some Key.escape) => (s, ControlFlow.Break, [])
    | WindowEvent.keyboardInput true (some (Key.otherKey _)) =>
      (s, ControlFlow.Continue,
        Action.sendTransaction (Compositor.send_display_list epoch pipeline_id) :: frameTail)
    | e =>
      let r := app.on_event s e
      if r.2 then
        (r.1, ControlFlow.Continue,
          Action.sendTransaction (Compositor.send_display_list epoch pipeline_id) :: frameTail)
      else
        (r.1, ControlFlow.Continue, frameTail)

/-- The `run_forever` pump: process events until the closure returns
`Break`; `Compositor::deinit` runs once after the loop exits
(app.rs:264). An exhausted event list models a loop still blocked waiting. -/
def runLoop {σ : Type} (app : AppModel σ) (epoch : ℕ) (pipeline_id : ℕ × ℕ) :
    σ → List GlobalEvent → List Action
  | _, [] => []
  | s, ev :: rest =>
    match iterate app epoch pipeline_id s ev with
    | (s', ControlFlow.Continue, acts) => acts ++ runLoop app epoch pipeline_id s' rest
    | (_, ControlFlow.Break, acts) => acts ++ [Action.deinit]

/-- Mirror of `run` (app.rs:114-265) after initialization: `epoch` is fixed
at `Epoch(0)` and `pipeline_id` at `PipelineId(0,0)` (app.rs:189-190), an
initial display list is submitted before the loop (app.rs:202), then the
event loop runs. -/
def run {σ : Type} (app : AppModel σ) (s : σ) (events : List GlobalEvent) : List Action :=
  Action.sendTransaction (Compositor.send_display_list 0 (0, 0)) ::
    runLoop app 0 (0, 0) s events

/-- The epochs carried by the display-list transactions of a trace, in
submission order. -/
def submittedEpochs (acts : List Action) : List ℕ :=
  acts.filterMap fun a =>
    match a with
    | Action.sendTransaction txn => some txn.display_list_epoch
    | _ => none

/-- A strategy whose handler always requests a rebuild. -/
def alwaysRebuild : AppModel Unit :=
  ⟨fun s _ => (s, true)⟩

/-- A strategy whose handler never requests a rebuild. -/
def neverRebuild : AppModel Unit :=
  ⟨fun s _ => (s, false)⟩

/-- A strategy over ℕ that counts how many times its handler is invoked and
never requests a rebuild: dispatching an event to it increments the state. -/
def countingApp : AppModel ℕ :=
  ⟨fun s _ => (s + 1, false)⟩

/-- The window events that reach the catch-all arm `other => custom_event =
app.on_event(other, ...)` of the match in `run` (app.rs:240-244): everything
except `CloseRequested`, the motion events, and `KeyboardInput` with
`state: Pressed` and a `Some` virtual keycode. -/
def handled_by_catch_all : WindowEvent → Bool
  | WindowEvent.closeRequested => false
  | WindowEvent.axisMotion => false
  | WindowEvent.cursorMoved => false
  | WindowEvent.keyboardInput true (some _) => false
  | _ => true

/-- A window whose winit queries all succeed: hidpi 2, outer and inner size
(800, 600), position (0, 0), screen 1920×1080. -/
def goodWindow : Window :=
  ⟨2, some (800, 600), some (0, 0), (1920, 1080), some (800, 600)⟩

/-- The same window but with the inner-size query failing (winit returns
`None`, e.g. the window is gone), so `get_inner_size().expect(..)` panics. -/
def badWindow : Window :=
  ⟨2, some (800, 600), some (0, 0), (1920, 1080), none⟩

/-- The coordinates `goodWindow` resolves to. -/
def goodCoords : EmbedderCoordinates :=
  { hidpi_factor := 2
    screen := ⟨3840, 2160⟩
    window := (⟨1600, 1200⟩, ⟨0, 0⟩)
    framebuffer := ⟨1600, 1200⟩
    viewport := ⟨⟨0, 0⟩, ⟨1600, 1200⟩⟩
    layout := ⟨800, 600⟩ }

/-- Every iteration's action list is one of: nothing, the bare
composite/draw_custom/present tail, or a display-list submission followed by
that tail. -/
theorem iterate_acts_shape {σ : Type} (app : AppModel σ) (epoch : ℕ) (pid : ℕ × ℕ)
    (s : σ) (ev : GlobalEvent) :
    (iterate app epoch pid s ev).2.2 = [] ∨
    (iterate app epoch pid s ev).2.2 = frameTail ∨
    (iterate app epoch pid s ev).2.2 =
      Action.sendTransaction (Compositor.send_display_list epoch pid) :: frameTail := by
  cases ev with
  | nonWindowEvent t => left; rfl
  | windowEvent we =>
    cases we with
    | closeRequested => left; rfl
    | axisMotion =>
      by_cases h : (app.on_event s WindowEvent.axisMotion).2
      · right; right; simp [iterate, h]
      · left; simp [iterate, h]
    | cursorMoved =>
      by_cases h : (app.on_event s WindowEvent.cursorMoved).2
      · right; right; simp [iterate, h]
      · left; simp [iterate, h]
    | otherEvent t =>
      by_cases h : (app.on_event s (WindowEvent.otherEvent t)).2
      · right; right; simp [iterate, h]
      · right; left; simp [iterate, h]
    | keyboardInput pressed kc =>
      cases pressed with
      | false =>
        by_cases h : (app.on_event s (WindowEvent.keyboardInput false kc)).2
        · right; right; simp [iterate, h]
        · right; left; simp [iterate, h]
      | true =>
        cases kc with
        | none =>
          by_cases h : (app.on_event s (WindowEvent.keyboardInput true none)).2
          · right; right; simp [iterate, h]
          · right; left; simp [iterate, h]
        | some k =>
          cases k with
          | escape => left; rfl
          | otherKey c => right; right; rfl

/-- The `run_forever` closure never calls `deinit` itself. -/
theorem iterate_no_deinit {σ : Type} (app : AppModel σ) (epoch : ℕ) (pid : ℕ × ℕ)
    (s : σ) (ev : GlobalEvent) :
    Action.deinit ∉ (iterate app epoch pid s ev).2.2 := by
  rcases iterate_acts_shape app epoch pid s ev with h | h | h <;>
    rw [h] <;> simp [frameTail]

/-- Claim C6: flipping a viewport (`origin.y = framebuffer.height -
origin.y - size.height`) twice with the same framebuffer height gives back
the original viewport rectangle. -/
theorem flipped_viewport_involutive (c : EmbedderCoordinates) :
    ({ c with viewport := c.get_flipped_viewport } : EmbedderCoordinates).get_flipped_viewport
      = c.viewport := by
  cases c with
  | mk hf sc w fb vp ly =>
    cases vp with
    | mk o sz =>
      cases o with
      | mk ox oy =>
        simp only [EmbedderCoordinates.get_flipped_viewport]
        congr 1
        · congr 1
          omega


/-- Claim C9: an iteration performs the composite step if and only if it
performs the present step: compositing is always followed by presentation in
the same iteration. -/
theorem composite_iff_present {σ : Type} (app : AppModel σ) (epoch : ℕ) (pid : ℕ × ℕ)
    (s : σ) (ev : GlobalEvent) :
    Action.composite ∈ (iterate app epoch pid s ev).2.2 ↔
      Action.present ∈ (iterate app epoch pid s ev).2.2 := by
  rcases iterate_acts_shape app epoch pid s ev with h | h | h <;>
    rw [h] <;> simp [frameTail]

/-- Claim C10: an event that is not a window event -- in particular the
`Awakened` event posted by `Notifier::wake_up` -- makes the closure return
`ControlFlow::Continue` immediately: the strategy is not consulted, and no
submission, composite or present happens. -/
theorem non_window_event_is_noop {σ : Type} (app : AppModel σ) (epoch : ℕ)
    (pid : ℕ × ℕ) (s : σ) (tag : ℕ) :
    iterate app epoch pid s (GlobalEvent.nonWindowEvent tag) = (s, ControlFlow.Continue, []) ∧
    iterate app epoch pid s Notifier.wake_up = (s, ControlFlow.Continue, []) :=
  ⟨rfl, rfl⟩

/-- Claim C2: a `CursorMoved` or `AxisMotion` event whose dispatch to the
strategy's `on_event` returns `false` produces no display-list submission,
no composite and no present; the closure returns `Continue` with only the
strategy state update. -/
theorem motion_without_rebuild_is_noop {σ : Type} (app : AppModel σ) (epoch : ℕ)
    (pid : ℕ × ℕ) (s : σ) (ev : WindowEvent)
    (hmotion : ev = WindowEvent.axisMotion ∨ ev = WindowEvent.cursorMoved)
    (hno : (app.on_event s ev).2 = false) :
    iterate app epoch pid s (GlobalEvent.windowEvent ev) =
      ((app.on_event s ev).1, ControlFlow.Continue, []) := by
  rcases hmotion with h | h <;> subst h <;> simp [iterate, hno]

/-- Witness for C2 at a concrete input: a `CursorMoved` event handled by the
never-rebuild strategy. -/
theorem motion_without_rebuild_is_noop_witness :
    (WindowEvent.cursorMoved = WindowEvent.axisMotion ∨
      WindowEvent.cursorMoved = WindowEvent.cursorMoved) ∧
    (neverRebuild.on_event () WindowEvent.cursorMoved).2 = false ∧
    iterate neverRebuild 0 (0, 0) () (GlobalEvent.windowEvent WindowEvent.cursorMoved) =
      ((neverRebuild.on_event () WindowEvent.cursorMoved).1, ControlFlow.Continue, []) :=
  ⟨Or.inr rfl, rfl,
    motion_without_rebuild_is_noop neverRebuild 0 (0, 0) () WindowEvent.cursorMoved
      (Or.inr rfl) rfl⟩

/-- Claim C1, counterexample: with a strategy that always requests a
rebuild, two consecutive rebuild-triggering events both submit their display
list with epoch 0 (`run` declares `let epoch = Epoch(0)` and never
increments it), so the submitted epochs are not strictly increasing. -/
theorem epochs_not_strictly_increasing_cex :
    submittedEpochs (runLoop alwaysRebuild 0 (0, 0) ()
      [GlobalEvent.windowEvent (WindowEvent.otherEvent 0),
        GlobalEvent.windowEvent (WindowEvent.otherEvent 1)]) = [0, 0] ∧
    ¬ (∃ e1 e2, submittedEpochs (runLoop alwaysRebuild 0 (0, 0) ()
        [GlobalEvent.windowEvent (WindowEvent.otherEvent 0),
          GlobalEvent.windowEvent (WindowEvent.otherEvent 1)]) = [e1, e2] ∧ e1 < e2) := by
  constructor
  · decide
  · rintro ⟨e1, e2, hlist, hlt⟩
    have h00 : submittedEpochs (runLoop alwaysRebuild 0 (0, 0) ()
        [GlobalEvent.windowEvent (WindowEvent.otherEvent 0),
          GlobalEvent.windowEvent (WindowEvent.otherEvent 1)]) = [0, 0] := by decide
    rw [h00] at hlist
    obtain ⟨h1, h2⟩ := List.cons.inj hlist.symm
    obtain ⟨h3, _⟩ := List.cons.inj h2
    omega

/-- Every epoch submitted by the event loop is the captured `epoch`
argument. -/
theorem runLoop_epochs_const {σ : Type} (app : AppModel σ) (epoch : ℕ) (pid : ℕ × ℕ) :
    ∀ (events : List GlobalEvent) (s : σ) (e : ℕ),
      e ∈ submittedEpochs (runLoop app epoch pid s events) → e = epoch := by
  intro events
  induction events with
  | nil =>
    intro s e he
    simp [runLoop, submittedEpochs] at he
  | cons ev rest ih =>
    intro s e he
    rw [runLoop] at he
    rcases hiter : iterate app epoch pid s ev with ⟨s', cf, acts⟩
    rw [hiter] at he
    have hacts : acts = [] ∨ acts = frameTail ∨
        acts = Action.sendTransaction (Compositor.send_display_list epoch pid) :: frameTail := by
      have := iterate_acts_shape app epoch pid s ev
      rw [hiter] at this
      exact this
    cases cf with
    | Continue =>
      rw [submittedEpochs, List.filterMap_append] at he
      rcases List.mem_append.mp he with hl | hr
      · rcases hacts with h | h | h <;> subst h <;>
          simp [frameTail, Compositor.send_display_list] at hl
        exact hl
      · exact ih s' e hr
    | Break =>
      rw [submittedEpochs, List.filterMap_append] at he
      rcases List.mem_append.mp he with hl | hr
      · rcases hacts with h | h | h <;> subst h <;>
          simp [frameTail, Compositor.send_display_list] at hl
        exact hl
      · simp at hr

/-- Claim C1, amended: the epoch is never incremented -- every display-list
submission of `run`, the initial one and every rebuild inside the loop,
carries epoch 0. -/
theorem submitted_epochs_all_zero {σ : Type} (app : AppModel σ) (s : σ)
    (events : List GlobalEvent) :
    ∀ e ∈ submittedEpochs (run app s events), e = 0 := by
  intro e he
  rw [run, submittedEpochs, List.filterMap_cons] at he
  simp only [Compositor.send_display_list] at he
  rcases List.mem_cons.mp he with h | h
  · exact h
  · exact runLoop_epochs_const app 0 (0, 0) events s e h

/-- Witness for the amended C1 at a concrete input. -/
theorem submitted_epochs_all_zero_witness :
    0 ∈ submittedEpochs (run alwaysRebuild ()
      [GlobalEvent.windowEvent (WindowEvent.otherEvent 0)]) ∧ (0 : ℕ) = 0 :=
  ⟨by decide,
    submitted_epochs_all_zero alwaysRebuild ()
      [GlobalEvent.windowEvent (WindowEvent.otherEvent 0)] 0 (by decide)⟩

/-- Claim C3, counterexample: a pressed non-Escape key (the `_ => {}` arm of
the keycode match, app.rs:238) is not dispatched to the strategy -- the
counting strategy's state stays 0 instead of becoming 1 -- and a rebuild is
submitted even though the strategy's handler returns `false`. -/
theorem keypress_not_dispatched_cex :
    ¬ (((iterate countingApp 0 (0, 0) 0
          (GlobalEvent.windowEvent (WindowEvent.keyboardInput true (some (Key.otherKey 5))))).1
        = (countingApp.on_event 0 (WindowEvent.keyboardInput true (some (Key.otherKey 5)))).1) ∧
      (Action.sendTransaction (Compositor.send_display_list 0 (0, 0)) ∈
          (iterate countingApp 0 (0, 0) 0
            (GlobalEvent.windowEvent (WindowEvent.keyboardInput true (some (Key.otherKey 5))))).2.2 ↔
        (countingApp.on_event 0 (WindowEvent.keyboardInput true (some (Key.otherKey 5)))).2 = true)) := by
  decide

/-- Claim C3, amended: a pressed keyboard key other than Escape is not
dispatched to the strategy and unconditionally triggers a rebuild (the
`custom_event` flag stays at its initial `true`); every event reaching the
catch-all arm is dispatched, and a rebuild happens there iff the handler
returned `true`. -/
theorem dispatch_decides_rebuild {σ : Type} (app : AppModel σ) (epoch : ℕ)
    (pid : ℕ × ℕ) (s : σ) (ev : WindowEvent) :
    (∀ c, ev = WindowEvent.keyboardInput true (some (Key.otherKey c)) →
      iterate app epoch pid s (GlobalEvent.windowEvent ev) =
        (s, ControlFlow.Continue,
          Action.sendTransaction (Compositor.send_display_list epoch pid) :: frameTail)) ∧
    (handled_by_catch_all ev = true →
      iterate app epoch pid s (GlobalEvent.windowEvent ev) =
        ((app.on_event s ev).1, ControlFlow.Continue,
          if (app.on_event s ev).2 then
            Action.sendTransaction (Compositor.send_display_list epoch pid) :: frameTail
          else frameTail)) := by
  constructor
  · rintro c rfl
    rfl
  · intro h
    cases ev with
    | closeRequested => simp [handled_by_catch_all] at h
    | axisMotion => simp [handled_by_catch_all] at h
    | cursorMoved => simp [handled_by_catch_all] at h
    | otherEvent t =>
      by_cases hr : (app.on_event s (WindowEvent.otherEvent t)).2 <;> simp [iterate, hr]
    | keyboardInput pressed kc =>
      cases pressed with
      | false =>
        by_cases hr : (app.on_event s (WindowEvent.keyboardInput false kc)).2 <;>
          simp [iterate, hr]
      | true =>
        cases kc with
        | none =>
          by_cases hr : (app.on_event s (WindowEvent.keyboardInput true none)).2 <;>
            simp [iterate, hr]
        | some k => simp [handled_by_catch_all] at h

/-- Witness for the amended C3: a pressed letter key is not dispatched and
rebuilds; a released key reaches the catch-all arm and is dispatched. -/
theorem dispatch_decides_rebuild_witness :
    (iterate neverRebuild 0 (0, 0) ()
      (GlobalEvent.windowEvent (WindowEvent.keyboardInput true (some (Key.otherKey 7)))) =
        ((), ControlFlow.Continue,
          Action.sendTransaction (Compositor.send_display_list 0 (0, 0)) :: frameTail)) ∧
    (iterate neverRebuild 0 (0, 0) ()
      (GlobalEvent.windowEvent (WindowEvent.keyboardInput false (some (Key.otherKey 7)))) =
        ((neverRebuild.on_event () (WindowEvent.keyboardInput false (some (Key.otherKey 7)))).1,
          ControlFlow.Continue,
          if (neverRebuild.on_event () (WindowEvent.keyboardInput false (some (Key.otherKey 7)))).2 then
            Action.sendTransaction (Compositor.send_display_list 0 (0, 0)) :: frameTail
          else frameTail)) :=
  ⟨(dispatch_decides_rebuild neverRebuild 0 (0, 0) ()
      (WindowEvent.keyboardInput true (some (Key.otherKey 7)))).1 7 rfl,
    (dispatch_decides_rebuild neverRebuild 0 (0, 0) ()
      (WindowEvent.keyboardInput false (some (Key.otherKey 7)))).2 rfl⟩

/-- At most one `deinit` ever appears in a loop trace, and only after a
`Break`. -/
theorem runLoop_deinit_count {σ : Type} (app : AppModel σ) (epoch : ℕ) (pid : ℕ × ℕ) :
    ∀ (events : List GlobalEvent) (s : σ),
      (runLoop app epoch pid s events).count Action.deinit ≤ 1 := by
  intro events
  induction events with
  | nil => intro s; simp [runLoop]
  | cons ev rest ih =>
    intro s
    rw [runLoop]
    rcases hiter : iterate app epoch pid s ev with ⟨s', cf, acts⟩
    have hnd : Action.deinit ∉ acts := by
      have := iterate_no_deinit app epoch pid s ev
      rw [hiter] at this
      exact this
    cases cf with
    | Continue =>
      rw [List.count_append]
      have h0 : acts.count Action.deinit = 0 := List.count_eq_zero.mpr hnd
      rw [h0]
      simpa using ih s'
    | Break =>
      rw [List.count_append]
      have h0 : acts.count Action.deinit = 0 := List.count_eq_zero.mpr hnd
      rw [h0]
      simp

/-- Claim C4: a `CloseRequested` event or a pressed Escape key makes the
closure return `ControlFlow::Break` with no rebuild, composite or present in
that iteration; the remaining events are never processed and
`Compositor::deinit` runs exactly once, after the loop exits.  In general a
trace contains at most one `deinit`. -/
theorem quit_breaks_and_deinit_once {σ : Type} (app : AppModel σ) (s : σ)
    (ev : GlobalEvent) (rest : List GlobalEvent)
    (hquit : ev = GlobalEvent.windowEvent WindowEvent.closeRequested ∨
      ev = GlobalEvent.windowEvent (WindowEvent.keyboardInput true (some Key.escape))) :
    iterate app 0 (0, 0) s ev = (s, ControlFlow.Break, []) ∧
    runLoop app 0 (0, 0) s (ev :: rest) = [Action.deinit] ∧
    (∀ events : List GlobalEvent, (runLoop app 0 (0, 0) s events).count Action.deinit ≤ 1) := by
  refine ⟨?_, ?_, fun events => runLoop_deinit_count app 0 (0, 0) events s⟩
  · rcases hquit with h | h <;> subst h <;> rfl
  · rcases hquit with h | h <;> subst h <;> rw [runLoop] <;> rfl

/-- Witness for C4 at a concrete input: `CloseRequested` arriving with one
more event queued behind it. -/
theorem quit_breaks_and_deinit_once_witness :
    (GlobalEvent.windowEvent WindowEvent.closeRequested =
        GlobalEvent.windowEvent WindowEvent.closeRequested ∨
      GlobalEvent.windowEvent WindowEvent.closeRequested =
        GlobalEvent.windowEvent (WindowEvent.keyboardInput true (some Key.escape))) ∧
    iterate alwaysRebuild 0 (0, 0) ()
      (GlobalEvent.windowEvent WindowEvent.closeRequested) = ((), ControlFlow.Break, []) ∧
    runLoop alwaysRebuild 0 (0, 0) ()
      [GlobalEvent.windowEvent WindowEvent.closeRequested,
        GlobalEvent.windowEvent (WindowEvent.otherEvent 1)] = [Action.deinit] :=
  ⟨Or.inl rfl,
    (quit_breaks_and_deinit_once alwaysRebuild ()
      (GlobalEvent.windowEvent WindowEvent.closeRequested)
      [GlobalEvent.windowEvent (WindowEvent.otherEvent 1)] (Or.inl rfl)).1,
    (quit_breaks_and_deinit_once alwaysRebuild ()
      (GlobalEvent.windowEvent WindowEvent.closeRequested)
      [GlobalEvent.windowEvent (WindowEvent.otherEvent 1)] (Or.inl rfl)).2.1⟩

/-- Claim C5: for every positive hidpi factor and non-negative inner size
(and any outer size / position / screen size), `get_coordinates` succeeds
and the resolved coordinates satisfy `layout == framebuffer / hidpi_factor`,
`viewport.origin == (0,0)` and `viewport.size == framebuffer`; and in the
concrete scenario hidpi 2.0 with inner size (800, 600), the framebuffer is
(1600, 1200), the layout (800, 600) and the viewport (0, 0, 1600, 1200). -/
theorem get_coordinates_invariants :
    (∀ (dpr ow oh px py iw ih : ℚ) (sw sh : ℕ), 0 < dpr → 0 ≤ iw → 0 ≤ ih →
      ∃ c, Window.get_coordinates ⟨dpr, some (ow, oh), some (px, py), (sw, sh), some (iw, ih)⟩
          = Except.ok c ∧
        c.layout.width = (c.framebuffer.width : ℚ) / dpr ∧
        c.layout.height = (c.framebuffer.height : ℚ) / dpr ∧
        c.viewport.origin = ⟨0, 0⟩ ∧
        c.viewport.size = c.framebuffer) ∧
    (∃ c, Window.get_coordinates goodWindow = Except.ok c ∧
      c.framebuffer = ⟨1600, 1200⟩ ∧ c.layout = ⟨800, 600⟩ ∧
      c.viewport = ⟨⟨0, 0⟩, ⟨1600, 1200⟩⟩) := by
  constructor
  · intro dpr ow oh px py iw ih sw sh hd hiw hih
    exact ⟨_, rfl, rfl, rfl, rfl, rfl⟩
  · refine ⟨goodCoords, ?_, rfl, rfl, rfl⟩
    norm_num [Window.get_coordinates, goodWindow, goodCoords, toI32]

/-- Witness for C5 at a concrete input (hidpi 2, inner size (800, 600)). -/
theorem get_coordinates_invariants_witness :
    (0 : ℚ) < 2 ∧ (0 : ℚ) ≤ 800 ∧ (0 : ℚ) ≤ 600 ∧
    (∃ c, Window.get_coordinates ⟨2, some (800, 600), some (0, 0), (1920, 1080), some (800, 600)⟩
        = Except.ok c ∧
      c.layout.width = (c.framebuffer.width : ℚ) / 2 ∧
      c.layout.height = (c.framebuffer.height : ℚ) / 2 ∧
      c.viewport.origin = ⟨0, 0⟩ ∧
      c.viewport.size = c.framebuffer) :=
  ⟨by norm_num, by norm_num, by norm_num,
    get_coordinates_invariants.1 2 800 600 0 0 800 600 1920 1080
      (by norm_num) (by norm_num) (by norm_num)⟩

/-- Claim C8: all device-pixel quantities of `get_coordinates` are obtained
from the hidpi-scaled logical quantities by the same truncation-toward-zero
cast `toI32`, and the framebuffer is defined as the viewport size, so the
two can never differ; `toI32` truncates (floor for non-negative values,
toward zero for negative ones) rather than rounds. -/
theorem truncation_consistent (dpr ow oh px py iw ih : ℚ) (sw sh : ℕ) :
    (∃ c, Window.get_coordinates ⟨dpr, some (ow, oh), some (px, py), (sw, sh), some (iw, ih)⟩
        = Except.ok c ∧
      c.viewport.size = c.framebuffer ∧
      c.framebuffer = ⟨toI32 (iw * dpr), toI32 (ih * dpr)⟩ ∧
      c.window.1 = ⟨toI32 (ow * dpr), toI32 (oh * dpr)⟩ ∧
      c.screen = ⟨toI32 ((sw : ℚ) * dpr), toI32 ((sh : ℚ) * dpr)⟩) ∧
    (∀ q : ℚ, 0 ≤ q → (toI32 q : ℚ) ≤ q ∧ q < toI32 q + 1) ∧
    (∀ q : ℚ, q < 0 → q ≤ (toI32 q : ℚ) ∧ (toI32 q : ℚ) - 1 < q) := by
  refine ⟨⟨_, rfl, rfl, rfl, rfl, rfl⟩, ?_, ?_⟩
  · intro q hq
    rw [toI32, if_pos hq]
    exact ⟨Int.floor_le q, by exact_mod_cast Int.lt_floor_add_one q⟩
  · intro q hq
    rw [toI32, if_neg (not_le.mpr hq)]
    refine ⟨Int.le_ceil q, ?_⟩
    have := Int.ceil_lt_add_one q
    push_cast at this ⊢
    linarith

/-- Witness for C8 at a concrete input. -/
theorem truncation_consistent_witness :
    (0 : ℚ) ≤ 3 / 2 ∧ ((toI32 (3 / 2) : ℚ) ≤ 3 / 2 ∧ (3 / 2 : ℚ) < toI32 (3 / 2) + 1) :=
  ⟨by norm_num,
    (truncation_consistent 2 800 600 0 0 800 600 1920 1080).2.1 (3 / 2) (by norm_num)⟩

/-- Claim C7, counterexample: with a failing `make_gl_context_current` the
composite still binds, clears and renders (the frame is not skipped), and
with a failing inner-size query `composite` panics (`Except.error`), so the
process does terminate. -/
theorem composite_failure_cex :
    Compositor.composite false (some (some 3)) goodWindow =
      Except.ok [GlStep.logMakeCurrentFailed, GlStep.bindFramebuffer 3, GlStep.update,
        GlStep.clearBackground ⟨⟨0, 0⟩, ⟨1600, 1200⟩⟩, GlStep.render ⟨1600, 1200⟩] ∧
    Compositor.composite true (some (some 3)) badWindow =
      Except.error PanicMsg.failedInnerSize := by
  constructor
  · norm_num [Compositor.composite, Window.get_coordinates, goodWindow, toI32,
      EmbedderCoordinates.get_flipped_viewport]
  · rfl

/-- Claim C7, amended: a failure to make the GL context current is only
logged and compositing proceeds through bind, update, clear and render; a
failure of the window-size query propagates as a panic (the `.expect` in
`get_coordinates`), aborting the process rather than skipping the frame. -/
theorem composite_failure_semantics (context_surface_info : Option (Option ℕ)) (w : Window) :
    (∀ c, Window.get_coordinates w = Except.ok c →
      Compositor.composite false context_surface_info w =
        Except.ok [GlStep.logMakeCurrentFailed,
          GlStep.bindFramebuffer ((context_surface_info.getD none).getD 0), GlStep.update,
          GlStep.clearBackground c.get_flipped_viewport, GlStep.render c.framebuffer]) ∧
    (∀ e mc, Window.get_coordinates w = Except.error e →
      Compositor.composite mc context_surface_info w = Except.error e) := by
  constructor
  · intro c hc
    simp [Compositor.composite, hc]
  · intro e mc hc
    cases mc <;> simp [Compositor.composite, hc]

/-- Witness for the amended C7 at concrete inputs: a healthy window with a
failed context activation, and a window whose inner-size query fails. -/
theorem composite_failure_semantics_witness :
    (Window.get_coordinates goodWindow = Except.ok goodCoords ∧
      Compositor.composite false (some (some 3)) goodWindow =
        Except.ok [GlStep.logMakeCurrentFailed, GlStep.bindFramebuffer 3, GlStep.update,
          GlStep.clearBackground goodCoords.get_flipped_viewport,
          GlStep.render goodCoords.framebuffer]) ∧
    (Window.get_coordinates badWindow = Except.error PanicMsg.failedInnerSize ∧
      Compositor.composite true (some (some 3)) badWindow =
        Except.error PanicMsg.failedInnerSize) := by
  have hok : Window.get_coordinates goodWindow = Except.ok goodCoords := by
    norm_num [Window.get_coordinates, goodWindow, goodCoords, toI32]
  have herr : Window.get_coordinates badWindow = Except.error PanicMsg.failedInnerSize := rfl
  refine ⟨⟨hok, ?_⟩, ⟨herr, ?_⟩⟩
  · have := (composite_failure_semantics (some (some 3)) goodWindow).1 goodCoords hok
    simpa using this
  · exact (composite_failure_semantics (some (some 3)) badWindow).2
      PanicMsg.failedInnerSize true herr

end Demo

